import Mathlib

/-!
# URL shortener: the two handlers of `main.go` over an explicit store

`shortenURL` and `redirectToURL` are embedded as pure functions.  Everything the
Go handlers reach through globals or through the framework is made explicit:

* the process environment (`os.Getenv`) is an association list,
* the request seen through `echo.Context` is a record (host, form fields, path
  parameters),
* the value of `uuid.New().String()` is an argument of `shortenURL`; that the
  generator never repeats an identifier is stated by `uuidUnique`,
* the Redis server behind the global `redisClient` and the lines written by the
  global `logger` form the `State` threaded through a handler.

A handler returns the `error` of the Go function (as `Except`, carrying the
response that was written when the error is `nil`) together with the new state.
-/

namespace UrlShortener

/-! ## `time.Duration` -/

/-- Go `time.Duration`: a count of nanoseconds. -/
abbrev Duration := Int

def Nanosecond : Duration := 1
def Microsecond : Duration := 1000 * Nanosecond
def Millisecond : Duration := 1000 * Microsecond
def Second : Duration := 1000 * Millisecond
def Minute : Duration := 60 * Second
def Hour : Duration := 60 * Minute

/-! ## `net/http` status codes used by the handlers -/

def StatusOK : Nat := 200
def StatusFound : Nat := 302
def StatusBadRequest : Nat := 400
def StatusNotFound : Nat := 404
def StatusInternalServerError : Nat := 500

/-! ## The process environment -/

/-- The environment of the process: variable name, value. -/
abbrev Env := List (String × String)

/-- Go `os.Getenv`: the value of the variable, empty when it is not present. -/
def Getenv (env : Env) (key : String) : String :=
  (env.lookup key).getD ""

/-! ## The key-value store -/

/-- The errors a store command can return: `redis.Nil` (the key does not exist)
or any other failure, with its cause. -/
inductive RedisError where
  | Nil
  | failure (cause : String)
  deriving DecidableEq, Repr

/-- Go `errors.Is(err, redis.Nil)`. -/
def RedisError.isNil : RedisError → Bool
  | .Nil => true
  | .failure _ => false

/-- One stored record: the value and the instant (nanoseconds on the server
clock) from which it is no longer accessible; `none` is a record without expiry. -/
structure Record where
  value : String
  expireAt : Option Int
  deriving DecidableEq, Repr

/-- The commands the handlers send to the store. -/
inductive Command where
  | set (key value : String) (expiration : Duration)
  | get (key : String)
  deriving DecidableEq, Repr

/-- Modelled from the spec: the external key-value store behind `redisClient`
(the go-redis client and the Redis server are not part of the repository), with
the get / set-with-expiry semantics the spec gives it.  `keyspace` is the flat key
space, `now` the server clock, `fault` the condition of the connection (when it is
`some cause` every command fails with that cause, an error other than
`redis.Nil`), and `commands` the commands the client has issued so far, oldest
first. -/
structure Redis where
  keyspace : String → Option Record
  now : Int
  fault : Option String
  commands : List Command

/-- KeepTTL of go-redis: the expiration that keeps the deadline a key already has. -/
def KeepTTL : Duration := -1

/-- The record under `key` that a reader can see: a record whose deadline has
been reached is inaccessible. -/
def Redis.live (r : Redis) (key : String) : Option Record :=
  match r.keyspace key with
  | none => none
  | some rec =>
    match rec.expireAt with
    | none => some rec
    | some deadline => if r.now < deadline then some rec else none

/-- Modelled from the spec: `redisClient.Set(ctx, key, value, expiration).Result()`.
The command is recorded; on a faulty connection it fails and stores nothing,
otherwise the record under `key` is replaced (SET overwrites) and the reply is
`OK`.  A positive expiration sets the deadline, `KeepTTL` keeps the current one,
any other expiration stores the record without expiry. -/
def Redis.Set (r : Redis) (key value : String) (expiration : Duration) :
    Except RedisError String × Redis :=
  let issued := r.commands ++ [Command.set key value expiration]
  match r.fault with
  | some cause => (.error (.failure cause), { r with commands := issued })
  | none =>
    let deadline : Option Int :=
      if 0 < expiration then some (r.now + expiration)
      else if expiration = KeepTTL then (r.live key).bind Record.expireAt
      else none
    let stored : Record := { value := value, expireAt := deadline }
    (.ok "OK",
      { r with
        keyspace := fun k => if k = key then some stored else r.keyspace k,
        commands := issued })

/-- Modelled from the spec: `redisClient.Get(ctx, key).Result()`.  The command is
recorded; on a faulty connection it fails with the cause, a key that is absent
or expired gives `redis.Nil`, otherwise the stored value is returned.  The key
space is never changed. -/
def Redis.Get (r : Redis) (key : String) : Except RedisError String × Redis :=
  let issued := r.commands ++ [Command.get key]
  match r.fault with
  | some cause => (.error (.failure cause), { r with commands := issued })
  | none =>
    match r.live key with
    | none => (.error .Nil, { r with commands := issued })
    | some rec => (.ok rec.value, { r with commands := issued })

/-! ## The logger -/

/-- One line written through `logger.Err(err).Msg(msg)`. -/
structure LogLine where
  err : RedisError
  msg : String
  deriving DecidableEq, Repr

/-! ## The request and the response (`echo.Context`) -/

/-- The part of `*http.Request` the handlers read. -/
structure Request where
  Host : String
  Form : List (String × String)
  deriving DecidableEq, Repr

/-- The part of `echo.Context` the handlers read: the request and the path
parameters bound by the router. -/
structure Context where
  request : Request
  params : List (String × String)
  deriving DecidableEq, Repr

/-- The response written by a handler. -/
structure Response where
  status : Nat
  header : List (String × String)
  body : String
  deriving DecidableEq, Repr

/-- Echo `c.FormValue(name)`: the first value of the form field, empty when the
field is missing. -/
def Context.FormValue (c : Context) (name : String) : String :=
  (c.request.Form.lookup name).getD ""

/-- Echo `c.Param(name)`: the value of the path parameter, empty when there is
none. -/
def Context.Param (c : Context) (name : String) : String :=
  (c.params.lookup name).getD ""

/-- Echo `c.Redirect(code, url)`: refuses a code outside 300..308, otherwise sets
the `Location` header and writes the status with an empty body. -/
def Context.Redirect (_c : Context) (code : Nat) (url : String) :
    Except String Response :=
  if code < 300 ∨ code > 308 then .error "invalid redirect status code"
  else .ok { status := code, header := [("Location", url)], body := "" }

/-- Echo `c.String(code, s)`: a plain-text response with the given status. -/
def Context.String (_c : Context) (code : Nat) (s : String) :
    Except String Response :=
  .ok { status := code, header := [("Content-Type", "text/plain; charset=UTF-8")],
        body := s }

/-! ## The handlers -/

/-- What the handlers reach through the globals `redisClient` and `logger`. -/
structure State where
  redisClient : Redis
  logger : List LogLine

/-- The handler `shortenURL` of `main.go`; `short` is the value returned by
`uuid.New().String()`. -/
def shortenURL (env : Env) (c : Context) (short : String) (st : State) :
    Except String Response × State :=
  let url := c.FormValue "url"
  if url = "" then
    (c.String StatusBadRequest "url cannot be empty", st)
  else
    let shortenUrl := "https://" ++ c.request.Host ++ "/s/" ++ short
    let shortenUrl :=
      if Getenv env "DEV_FLAG" = "1" then "http://" ++ c.request.Host ++ "/s/" ++ short
      else shortenUrl
    match st.redisClient.Set short url (24 * Hour) with
    | (.error err, r) =>
      (c.String StatusInternalServerError "failed to set shortened url",
        { redisClient := r,
          logger := st.logger ++ [{ err := err, msg := "failed to set shortened url" }] })
    | (.ok _, r) =>
      (c.String StatusOK shortenUrl, { st with redisClient := r })

/-- The handler `redirectToURL` of `main.go`. -/
def redirectToURL (c : Context) (st : State) : Except String Response × State :=
  let shortURL := c.Param "id"
  if shortURL = "" then
    (c.String StatusBadRequest "short url cannot be empty", st)
  else
    match st.redisClient.Get shortURL with
    | (.error err, r) =>
      if err.isNil then
        (c.String StatusNotFound "url not found", { st with redisClient := r })
      else
        (c.String StatusInternalServerError "failed to retrieve url",
          { redisClient := r,
            logger := st.logger ++ [{ err := err, msg := "failed to get shortened url" }] })
    | (.ok url, r) =>
      (c.Redirect StatusFound url, { st with redisClient := r })

/-! ## Sequences of calls -/

/-- One call of a handler together with what the outside world supplies for it:
the environment, the request, the identifier drawn by `uuid.New()` and the
condition of the store connection during the call. -/
inductive Call where
  | shorten (env : Env) (c : Context) (short : String) (fault : Option String)
  | redirect (c : Context) (fault : Option String)

/-- The state with the store connection in the given condition. -/
def State.withFault (st : State) (fault : Option String) : State :=
  { st with redisClient := { st.redisClient with fault := fault } }

/-- The state after one call.  The server clock does not move, so no record
expires between calls. -/
def step (st : State) : Call → State
  | .shorten env c short fault => (shortenURL env c short (st.withFault fault)).2
  | .redirect c fault => (redirectToURL c (st.withFault fault)).2

/-- The state after a sequence of calls, first call first. -/
def run (st : State) (calls : List Call) : State :=
  calls.foldl step st

/-- Modelled from the spec: `uuid.New()` (the google/uuid generator is not part
of the repository) "generates a process-wide-unique random identifier (collision
probability treated as zero)".  The handler draws the identifier itself, so no
caller chooses it; in a sequence of calls this is the statement that every
identifier drawn for a `shortenURL` call is, at the time of that call, not a key
of the store. -/
def uuidUnique : State → List Call → Prop
  | _, [] => True
  | st, call :: rest =>
    (match call with
      | .shorten _ _ short _ => st.redisClient.keyspace short = none
      | .redirect _ _ => True) ∧ uuidUnique (step st call) rest

/-! ## Sample inputs -/

/-- An empty store at time zero with a working connection. -/
def emptyStore : Redis :=
  { keyspace := fun _ => none, now := 0, fault := none, commands := [] }

/-- The empty store behind a connection that fails. -/
def brokenStore : Redis :=
  { emptyStore with fault := some "connection refused" }

/-- A POST /shorten request on host short.ly submitting https://example.com. -/
def postExample : Context :=
  { request := { Host := "short.ly", Form := [("url", "https://example.com")] },
    params := [] }

/-- A POST /shorten request on host short.ly whose url field is empty. -/
def postEmpty : Context :=
  { request := { Host := "short.ly", Form := [("url", "")] }, params := [] }

/-- A GET /s/:id request on host short.ly. -/
def getId (id : String) : Context :=
  { request := { Host := "short.ly", Form := [] }, params := [("id", id)] }

/-- A version-4 identifier as `uuid.New().String()` prints it. -/
def sampleId : String := "123e4567-e89b-42d3-a456-426614174000"

/-- A store at time 10 whose only record, under `sampleId`, expired at time 10. -/
def expiredStore : Redis :=
  { keyspace := fun k =>
      if k = sampleId then some { value := "https://example.com", expireAt := some 10 }
      else none,
    now := 10, fault := none, commands := [] }

/-- A store holding a record under the empty key, behind a failing connection. -/
def emptyKeyStore : Redis :=
  { keyspace := fun k =>
      if k = "" then some { value := "https://example.com", expireAt := none } else none,
    now := 0, fault := some "connection refused", commands := [] }

/-- A POST /shorten request on host short.ly submitting the given URL. -/
def postUrl (url : String) : Context :=
  { request := { Host := "short.ly", Form := [("url", url)] }, params := [] }

/-- A first call that creates the key `sampleId`. -/
def sampleBefore : List Call :=
  [Call.shorten [] (postUrl "https://a.example") sampleId none]

/-- Later calls: a lookup of the key, a write that fails, and a successful write
under another identifier. -/
def sampleAfter : List Call :=
  [Call.redirect (getId sampleId) none,
   Call.shorten [] (postUrl "https://b.example") "0f8fad5b-d9cb-469f-a165-70867728950e"
     (some "connection refused"),
   Call.shorten [("DEV_FLAG", "1")] (postUrl "https://c.example")
     "7c9e6679-7425-40de-944b-e07fc1f90ae7" none]

/-! ## Facts about the store -/

theorem day_pos : (0 : Int) < 24 * Hour := by decide

theorem day_eq_seconds : 24 * Hour = 86400 * Second := by decide

theorem Set_ok_fault {r : Redis} {key value reply : String} {d : Duration}
    (h : (r.Set key value d).1 = .ok reply) : r.fault = none := by
  cases hf : r.fault with
  | none => rfl
  | some cause => simp [Redis.Set, hf] at h

theorem Set_error_fault {r : Redis} {key value : String} {d : Duration} {err : RedisError}
    (h : (r.Set key value d).1 = .error err) :
    ∃ cause, r.fault = some cause ∧ err = .failure cause := by
  cases hf : r.fault with
  | none => simp [Redis.Set, hf] at h
  | some cause =>
    simp [Redis.Set, hf] at h
    exact ⟨cause, rfl, h.symm⟩

theorem Set_commands (r : Redis) (key value : String) (d : Duration) :
    (r.Set key value d).2.commands = r.commands ++ [Command.set key value d] := by
  cases hf : r.fault <;> simp [Redis.Set, hf]

theorem Set_now (r : Redis) (key value : String) (d : Duration) :
    (r.Set key value d).2.now = r.now := by
  cases hf : r.fault <;> simp [Redis.Set, hf]

theorem Set_fault (r : Redis) (key value : String) (d : Duration) :
    (r.Set key value d).2.fault = r.fault := by
  cases hf : r.fault <;> simp [Redis.Set, hf]

theorem Set_keyspace_of_fault {r : Redis} {cause : String} (hf : r.fault = some cause)
    (key value : String) (d : Duration) :
    (r.Set key value d).2.keyspace = r.keyspace := by
  simp [Redis.Set, hf]

theorem Set_keyspace_same {r : Redis} (hf : r.fault = none) (key value : String)
    {d : Duration} (hd : 0 < d) :
    (r.Set key value d).2.keyspace key
      = some { value := value, expireAt := some (r.now + d) } := by
  simp [Redis.Set, hf, hd]

theorem Set_keyspace_other (r : Redis) (key value : String) (d : Duration)
    {k : String} (hk : k ≠ key) :
    (r.Set key value d).2.keyspace k = r.keyspace k := by
  cases hf : r.fault <;> simp [Redis.Set, hf, hk]

theorem Get_keyspace (r : Redis) (key : String) :
    (r.Get key).2.keyspace = r.keyspace := by
  cases hf : r.fault with
  | some cause => simp [Redis.Get, hf]
  | none => cases hl : r.live key <;> simp [Redis.Get, hf, hl]

theorem Get_now (r : Redis) (key : String) : (r.Get key).2.now = r.now := by
  cases hf : r.fault with
  | some cause => simp [Redis.Get, hf]
  | none => cases hl : r.live key <;> simp [Redis.Get, hf, hl]

theorem Get_fault (r : Redis) (key : String) : (r.Get key).2.fault = r.fault := by
  cases hf : r.fault with
  | some cause => simp [Redis.Get, hf]
  | none => cases hl : r.live key <;> simp [Redis.Get, hf, hl]

theorem Get_commands (r : Redis) (key : String) :
    (r.Get key).2.commands = r.commands ++ [Command.get key] := by
  cases hf : r.fault with
  | some cause => simp [Redis.Get, hf]
  | none => cases hl : r.live key <;> simp [Redis.Get, hf, hl]

/-- Reading a key right after a successful write with a positive expiration
returns the written value. -/
theorem Get_after_Set {r : Redis} (hf : r.fault = none) (key value : String)
    {d : Duration} (hd : 0 < d) :
    ((r.Set key value d).2.Get key).1 = .ok value := by
  have hlive : (r.Set key value d).2.live key
      = some { value := value, expireAt := some (r.now + d) } := by
    simp [Redis.live, Redis.Set, hf, hd]
  have hf2 : (r.Set key value d).2.fault = none := by rw [Set_fault, hf]
  simp [Redis.Get, hf2, hlive]

/-! ## Facts about the handlers -/

theorem shortenURL_empty (env : Env) (c : Context) (short : String) (st : State)
    (h : c.FormValue "url" = "") :
    shortenURL env c short st
      = (c.String StatusBadRequest "url cannot be empty", st) := by
  simp [shortenURL, h]

theorem shortenURL_written (env : Env) (c : Context) (short : String) (st : State)
    (hu : c.FormValue "url" ≠ "") (hf : st.redisClient.fault = none) :
    shortenURL env c short st
      = (c.String StatusOK
          ((if Getenv env "DEV_FLAG" = "1" then "http://" else "https://")
            ++ c.request.Host ++ "/s/" ++ short),
         { st with redisClient := (st.redisClient.Set short (c.FormValue "url") (24 * Hour)).2 }) := by
  by_cases hd : Getenv env "DEV_FLAG" = "1" <;>
    simp [shortenURL, hu, Redis.Set, hf, hd]

theorem shortenURL_failed (env : Env) (c : Context) (short : String) (st : State)
    (hu : c.FormValue "url" ≠ "") {cause : String}
    (hf : st.redisClient.fault = some cause) :
    shortenURL env c short st
      = (c.String StatusInternalServerError "failed to set shortened url",
         { redisClient := (st.redisClient.Set short (c.FormValue "url") (24 * Hour)).2,
           logger := st.logger ++
             [{ err := .failure cause, msg := "failed to set shortened url" }] }) := by
  simp [shortenURL, hu, Redis.Set, hf]

theorem redirectToURL_empty (c : Context) (st : State) (h : c.Param "id" = "") :
    redirectToURL c st = (c.String StatusBadRequest "short url cannot be empty", st) := by
  simp [redirectToURL, h]

theorem redirectToURL_keyspace (c : Context) (st : State) :
    (redirectToURL c st).2.redisClient.keyspace = st.redisClient.keyspace := by
  unfold redirectToURL
  by_cases hid : c.Param "id" = ""
  · simp [hid]
  · simp only [hid, if_false]
    have hks := Get_keyspace st.redisClient (c.Param "id")
    generalize st.redisClient.Get (c.Param "id") = res at hks
    obtain ⟨out, r⟩ := res
    cases out with
    | ok url => exact hks
    | error err => cases err <;> exact hks

theorem redirectToURL_now (c : Context) (st : State) :
    (redirectToURL c st).2.redisClient.now = st.redisClient.now := by
  unfold redirectToURL
  by_cases hid : c.Param "id" = ""
  · simp [hid]
  · simp only [hid, if_false]
    have hks := Get_now st.redisClient (c.Param "id")
    generalize st.redisClient.Get (c.Param "id") = res at hks
    obtain ⟨out, r⟩ := res
    cases out with
    | ok url => exact hks
    | error err => cases err <;> exact hks

theorem shortenURL_redis (env : Env) (c : Context) (short : String) (st : State) :
    (shortenURL env c short st).2.redisClient = st.redisClient ∨
    (shortenURL env c short st).2.redisClient
      = (st.redisClient.Set short (c.FormValue "url") (24 * Hour)).2 := by
  by_cases hu : c.FormValue "url" = ""
  · left
    rw [shortenURL_empty env c short st hu]
  · right
    cases hf : st.redisClient.fault with
    | none => rw [shortenURL_written env c short st hu hf]
    | some cause => rw [shortenURL_failed env c short st hu hf]

theorem shortenURL_keyspace_other (env : Env) (c : Context) (short : String) (st : State)
    {k : String} (hk : k ≠ short) :
    (shortenURL env c short st).2.redisClient.keyspace k = st.redisClient.keyspace k := by
  rcases shortenURL_redis env c short st with h | h
  · rw [h]
  · rw [h]
    exact Set_keyspace_other _ _ _ _ hk

theorem shortenURL_now (env : Env) (c : Context) (short : String) (st : State) :
    (shortenURL env c short st).2.redisClient.now = st.redisClient.now := by
  rcases shortenURL_redis env c short st with h | h
  · rw [h]
  · rw [h]
    exact Set_now _ _ _ _

theorem step_now (st : State) (call : Call) :
    (step st call).redisClient.now = st.redisClient.now := by
  cases call with
  | shorten env c short fault => exact shortenURL_now env c short (st.withFault fault)
  | redirect c fault => exact redirectToURL_now c (st.withFault fault)

theorem run_now (st : State) (calls : List Call) :
    (run st calls).redisClient.now = st.redisClient.now := by
  induction calls generalizing st with
  | nil => rfl
  | cons call rest ih =>
    show (run (step st call) rest).redisClient.now = _
    rw [ih, step_now]

theorem step_keeps (st : State) (call : Call) (hfresh : uuidUnique st [call])
    {k : String} {r : Record} (hk : st.redisClient.keyspace k = some r) :
    (step st call).redisClient.keyspace k = some r := by
  cases call with
  | shorten env c short fault =>
    have hnone : st.redisClient.keyspace short = none := hfresh.1
    have hne : k ≠ short := by
      intro h
      rw [h, hnone] at hk
      exact Option.noConfusion hk
    show (shortenURL env c short (st.withFault fault)).2.redisClient.keyspace k = some r
    rw [shortenURL_keyspace_other env c short _ hne]
    exact hk
  | redirect c fault =>
    show (redirectToURL c (st.withFault fault)).2.redisClient.keyspace k = some r
    rw [redirectToURL_keyspace]
    exact hk

theorem run_keeps (st : State) (calls : List Call) (hfresh : uuidUnique st calls)
    {k : String} {r : Record} (hk : st.redisClient.keyspace k = some r) :
    (run st calls).redisClient.keyspace k = some r := by
  induction calls generalizing st with
  | nil => exact hk
  | cons call rest ih =>
    show (run (step st call) rest).redisClient.keyspace k = some r
    exact ih (step st call) hfresh.2 (step_keeps st call ⟨hfresh.1, trivial⟩ hk)

theorem run_append (st : State) (pre post : List Call) :
    run st (pre ++ post) = run (run st pre) post := by
  simp [run, List.foldl_append]

theorem uuidUnique_append (st : State) (pre post : List Call)
    (hfresh : uuidUnique st (pre ++ post)) : uuidUnique (run st pre) post := by
  induction pre generalizing st with
  | nil => exact hfresh
  | cons call rest ih => exact ih (step st call) hfresh.2

/-! ## Properties of the handlers -/

/-- C1: round trip.  For a non-empty submitted URL and a non-empty generated
identifier, when the store write succeeds `shortenURL` answers 200 with a body
of the form scheme, host, "/s/", identifier (so the text after "/s/" is the
identifier), and `redirectToURL` called with that identifier on the resulting
state answers 302 with `Location` exactly the submitted URL. -/
theorem C1_round_trip (env : Env) (c c2 : Context) (short : String) (st : State)
    (hu : c.FormValue "url" ≠ "") (hi : short ≠ "")
    (hw : ∃ reply, (st.redisClient.Set short (c.FormValue "url") (24 * Hour)).1 = .ok reply)
    (hid : c2.Param "id" = short) :
    (∃ resp, (shortenURL env c short st).1 = .ok resp ∧ resp.status = 200 ∧
      resp.body = (if Getenv env "DEV_FLAG" = "1" then "http://" else "https://")
        ++ c.request.Host ++ "/s/" ++ short) ∧
    (redirectToURL c2 (shortenURL env c short st).2).1
      = .ok { status := 302, header := [("Location", c.FormValue "url")], body := "" } := by
  obtain ⟨reply, hw⟩ := hw
  have hf := Set_ok_fault hw
  rw [shortenURL_written env c short st hu hf]
  refine ⟨⟨_, rfl, rfl, rfl⟩, ?_⟩
  have hget := Get_after_Set hf short (c.FormValue "url") day_pos
  simp only [redirectToURL, hid, hi, if_false]
  generalize hres : (st.redisClient.Set short (c.FormValue "url") (24 * Hour)).2.Get short = res at hget
  obtain ⟨out, r⟩ := res
  simp only at hget
  subst hget
  simp [Context.Redirect, StatusFound]

theorem C1_round_trip_witness :
    postExample.FormValue "url" ≠ "" ∧ sampleId ≠ "" ∧
    (∃ resp, (shortenURL [] postExample sampleId ⟨emptyStore, []⟩).1 = .ok resp ∧
      resp.status = 200 ∧
      resp.body = (if Getenv [] "DEV_FLAG" = "1" then "http://" else "https://")
        ++ postExample.request.Host ++ "/s/" ++ sampleId) ∧
    (redirectToURL (getId sampleId)
        (shortenURL [] postExample sampleId ⟨emptyStore, []⟩).2).1
      = .ok { status := 302, header := [("Location", postExample.FormValue "url")],
              body := "" } :=
  ⟨by decide, by decide,
    C1_round_trip [] postExample (getId sampleId) sampleId ⟨emptyStore, []⟩
      (by decide) (by decide) ⟨"OK", rfl⟩ rfl⟩

/-- C2: an empty `url` form field gives status 400 and leaves the whole state as
it was: no key is written and no command reaches the store, whatever the host,
the environment and the store. -/
theorem C2_empty_url (env : Env) (c : Context) (short : String) (st : State)
    (h : c.FormValue "url" = "") :
    (∃ resp, (shortenURL env c short st).1 = .ok resp ∧ resp.status = 400) ∧
    (shortenURL env c short st).2 = st ∧
    (shortenURL env c short st).2.redisClient.keyspace short = st.redisClient.keyspace short ∧
    (shortenURL env c short st).2.redisClient.commands = st.redisClient.commands := by
  rw [shortenURL_empty env c short st h]
  exact ⟨⟨_, rfl, rfl⟩, rfl, rfl, rfl⟩

theorem C2_empty_url_witness :
    postEmpty.FormValue "url" = "" ∧
    (∃ resp, (shortenURL [("DEV_FLAG", "1")] postEmpty sampleId ⟨emptyStore, []⟩).1 = .ok resp ∧
      resp.status = 400) ∧
    (shortenURL [("DEV_FLAG", "1")] postEmpty sampleId ⟨emptyStore, []⟩).2 = ⟨emptyStore, []⟩ ∧
    (shortenURL [("DEV_FLAG", "1")] postEmpty sampleId ⟨emptyStore, []⟩).2.redisClient.keyspace
        sampleId = emptyStore.keyspace sampleId ∧
    (shortenURL [("DEV_FLAG", "1")] postEmpty sampleId ⟨emptyStore, []⟩).2.redisClient.commands
      = emptyStore.commands :=
  ⟨by decide, C2_empty_url [("DEV_FLAG", "1")] postEmpty sampleId ⟨emptyStore, []⟩ (by decide)⟩

/-- C3 as written fails at the empty identifier: it was never created (the
empty store has no record under it and a lookup would report `redis.Nil`), yet
`redirectToURL` answers 400, not 404. -/
theorem C3_counterexample_empty_id :
    emptyStore.keyspace ((getId "").Param "id") = none ∧
    (emptyStore.Get ((getId "").Param "id")).1 = .error .Nil ∧
    (redirectToURL (getId "") ⟨emptyStore, []⟩).1
      = .ok { status := 400, header := [("Content-Type", "text/plain; charset=UTF-8")],
              body := "short url cannot be empty" } ∧
    ¬ (∃ resp, (redirectToURL (getId "") ⟨emptyStore, []⟩).1 = .ok resp ∧
        resp.status = 404) := by
  refine ⟨rfl, rfl, rfl, ?_⟩
  rintro ⟨resp, h, hs⟩
  have h2 : (redirectToURL (getId "") ⟨emptyStore, []⟩).1
      = .ok { status := 400, header := [("Content-Type", "text/plain; charset=UTF-8")],
              body := "short url cannot be empty" } := rfl
  rw [h2] at h
  injection h with h
  subst h
  simp at hs

/-- C3 (amended): for every store state and every non-empty identifier whose
lookup reports the key as absent (`redis.Nil`: never created, or expired),
`redirectToURL` answers 404 "url not found", which is no redirect: the status is
not 302 and there is no `Location` header.  The key space is left as it was. -/
theorem C3_absent_is_404 (c : Context) (st : State)
    (hid : c.Param "id" ≠ "")
    (habs : (st.redisClient.Get (c.Param "id")).1 = .error .Nil) :
    (∃ resp, (redirectToURL c st).1 = .ok resp ∧ resp.status = 404 ∧
      resp.body = "url not found" ∧ resp.status ≠ 302 ∧
      resp.header.lookup "Location" = none) ∧
    (redirectToURL c st).2.redisClient.keyspace = st.redisClient.keyspace := by
  have hmain : redirectToURL c st
      = (c.String StatusNotFound "url not found",
         { st with redisClient := (st.redisClient.Get (c.Param "id")).2 }) := by
    simp only [redirectToURL, hid, if_false]
    generalize st.redisClient.Get (c.Param "id") = res at habs
    obtain ⟨out, r⟩ := res
    simp only at habs
    subst habs
    simp [RedisError.isNil]
  rw [hmain]
  exact ⟨⟨_, rfl, rfl, rfl, by decide, by decide⟩, Get_keyspace _ _⟩

theorem C3_absent_is_404_witness :
    (getId sampleId).Param "id" ≠ "" ∧
    (expiredStore.Get ((getId sampleId).Param "id")).1 = .error .Nil ∧
    (∃ resp, (redirectToURL (getId sampleId) ⟨expiredStore, []⟩).1 = .ok resp ∧
      resp.status = 404 ∧ resp.body = "url not found" ∧ resp.status ≠ 302 ∧
      resp.header.lookup "Location" = none) ∧
    (redirectToURL (getId sampleId) ⟨expiredStore, []⟩).2.redisClient.keyspace
      = expiredStore.keyspace :=
  ⟨by decide, rfl, C3_absent_is_404 (getId sampleId) ⟨expiredStore, []⟩ (by decide) rfl⟩

/-- C4 as written fails when `DEV_FLAG` is set to a value other than "1": with
`DEV_FLAG=true` the variable is set, the write succeeds, and the returned short
URL begins with "https://", not with "http://". -/
theorem C4_counterexample_flag_true :
    List.lookup "DEV_FLAG" [("DEV_FLAG", "true")] = some "true" ∧
    (shortenURL [("DEV_FLAG", "true")] postExample sampleId ⟨emptyStore, []⟩).1
      = .ok { status := 200, header := [("Content-Type", "text/plain; charset=UTF-8")],
              body := "https://short.ly/s/123e4567-e89b-42d3-a456-426614174000" } ∧
    ¬ ("http://".data <+:
        "https://short.ly/s/123e4567-e89b-42d3-a456-426614174000".data) ∧
    "https://".data <+: "https://short.ly/s/123e4567-e89b-42d3-a456-426614174000".data := by
  refine ⟨rfl, rfl, by decide, by decide⟩

/-- C4 (amended): for a non-empty URL and a successful store write, the returned
short URL begins with "http://" exactly when `DEV_FLAG` has the value "1", and
begins with "https://" in every other case (variable not present, empty, or any
other value). -/
theorem C4_scheme_selection (env : Env) (c : Context) (short : String) (st : State)
    (hu : c.FormValue "url" ≠ "")
    (hw : ∃ reply, (st.redisClient.Set short (c.FormValue "url") (24 * Hour)).1 = .ok reply) :
    ∃ resp, (shortenURL env c short st).1 = .ok resp ∧
      (Getenv env "DEV_FLAG" = "1" ↔ "http://".data <+: resp.body.data) ∧
      (Getenv env "DEV_FLAG" ≠ "1" ↔ "https://".data <+: resp.body.data) := by
  obtain ⟨reply, hw⟩ := hw
  have hf := Set_ok_fault hw
  rw [shortenURL_written env c short st hu hf]
  refine ⟨_, rfl, ?_⟩
  by_cases hd : Getenv env "DEV_FLAG" = "1"
  · simp only [hd, if_true, String.data_append, List.append_assoc, true_iff, ne_eq,
      not_true_eq_false, false_iff]
    refine ⟨List.prefix_append _ _, ?_⟩
    simp [List.cons_prefix_cons]
  · simp only [hd, if_false, String.data_append, List.append_assoc, false_iff, ne_eq,
      not_false_eq_true, true_iff]
    refine ⟨?_, List.prefix_append _ _⟩
    simp [List.cons_prefix_cons]

theorem C4_scheme_selection_witness :
    postExample.FormValue "url" ≠ "" ∧
    (∃ reply, (emptyStore.Set sampleId (postExample.FormValue "url") (24 * Hour)).1
      = .ok reply) ∧
    ∃ resp, (shortenURL [("DEV_FLAG", "1")] postExample sampleId ⟨emptyStore, []⟩).1
        = .ok resp ∧
      (Getenv [("DEV_FLAG", "1")] "DEV_FLAG" = "1" ↔ "http://".data <+: resp.body.data) ∧
      (Getenv [("DEV_FLAG", "1")] "DEV_FLAG" ≠ "1" ↔ "https://".data <+: resp.body.data) :=
  ⟨by decide, ⟨"OK", rfl⟩,
    C4_scheme_selection [("DEV_FLAG", "1")] postExample sampleId ⟨emptyStore, []⟩
      (by decide) ⟨"OK", rfl⟩⟩

/-- C5: shape of the success response.  For a non-empty URL and a successful
store write the response is 200 and its body is exactly scheme, host, "/s/",
identifier, where the scheme is "http://" when `DEV_FLAG` is "1" and "https://"
otherwise; a request with the same host and any other non-empty URL (on any
store whose write succeeds) gets the same response; and with `DEV_FLAG` not
present and host short.ly the body is "https://short.ly/s/" followed by the
identifier. -/
theorem C5_success_shape (env : Env) (c c2 : Context) (short : String) (st st2 : State)
    (hu : c.FormValue "url" ≠ "")
    (hw : ∃ reply, (st.redisClient.Set short (c.FormValue "url") (24 * Hour)).1 = .ok reply)
    (hu2 : c2.FormValue "url" ≠ "")
    (hw2 : ∃ reply, (st2.redisClient.Set short (c2.FormValue "url") (24 * Hour)).1 = .ok reply)
    (hhost : c2.request.Host = c.request.Host) :
    ∃ resp, (shortenURL env c short st).1 = .ok resp ∧ resp.status = 200 ∧
      resp.body = (if Getenv env "DEV_FLAG" = "1" then "http://" else "https://")
        ++ c.request.Host ++ "/s/" ++ short ∧
      (shortenURL env c2 short st2).1 = .ok resp ∧
      (env.lookup "DEV_FLAG" = none → c.request.Host = "short.ly" →
        resp.body = "https://short.ly/s/" ++ short) := by
  obtain ⟨reply, hw⟩ := hw
  obtain ⟨reply2, hw2⟩ := hw2
  have hf := Set_ok_fault hw
  have hf2 := Set_ok_fault hw2
  rw [shortenURL_written env c short st hu hf, shortenURL_written env c2 short st2 hu2 hf2]
  refine ⟨_, rfl, rfl, rfl, by simp [hhost, Context.String], ?_⟩
  intro hunset hh
  have hne : ¬ Getenv env "DEV_FLAG" = "1" := by
    simp [Getenv, hunset]
  simp only [hne, if_false, hh]
  apply String.ext
  simp [String.data_append]

theorem C5_success_shape_witness :
    postExample.FormValue "url" ≠ "" ∧
    (postUrl "ftp://other").FormValue "url" ≠ "" ∧
    List.lookup "DEV_FLAG" ([] : Env) = none ∧ postExample.request.Host = "short.ly" ∧
    ∃ resp, (shortenURL [] postExample sampleId ⟨emptyStore, []⟩).1 = .ok resp ∧
      resp.status = 200 ∧
      resp.body = (if Getenv [] "DEV_FLAG" = "1" then "http://" else "https://")
        ++ postExample.request.Host ++ "/s/" ++ sampleId ∧
      (shortenURL [] (postUrl "ftp://other") sampleId ⟨expiredStore, []⟩).1 = .ok resp ∧
      (List.lookup "DEV_FLAG" ([] : Env) = none → postExample.request.Host = "short.ly" →
        resp.body = "https://short.ly/s/" ++ sampleId) :=
  ⟨by decide, by decide, rfl, rfl,
    C5_success_shape [] postExample (postUrl "ftp://other") sampleId ⟨emptyStore, []⟩
      ⟨expiredStore, []⟩ (by decide) ⟨"OK", rfl⟩ (by decide) ⟨"OK", rfl⟩ rfl⟩

/-- C6: store effect of a successful `shortenURL`.  For a non-empty URL and a
successful write, exactly one command reaches the store, a SET of the identifier
to the submitted URL with expiration 24 hours (86400 seconds); afterwards the
identifier maps to the URL unchanged with a deadline exactly 86400 seconds after
the current time, and every other key has the record it had before. -/
theorem C6_store_effect (env : Env) (c : Context) (short : String) (st : State)
    (hu : c.FormValue "url" ≠ "")
    (hw : ∃ reply, (st.redisClient.Set short (c.FormValue "url") (24 * Hour)).1 = .ok reply) :
    (shortenURL env c short st).2.redisClient.commands
      = st.redisClient.commands ++ [Command.set short (c.FormValue "url") (24 * Hour)] ∧
    24 * Hour = 86400 * Second ∧
    (shortenURL env c short st).2.redisClient.keyspace short
      = some { value := c.FormValue "url",
               expireAt := some (st.redisClient.now + 86400 * Second) } ∧
    (∀ k, k ≠ short →
      (shortenURL env c short st).2.redisClient.keyspace k = st.redisClient.keyspace k) ∧
    (shortenURL env c short st).2.redisClient.now = st.redisClient.now := by
  obtain ⟨reply, hw⟩ := hw
  have hf := Set_ok_fault hw
  rw [shortenURL_written env c short st hu hf]
  refine ⟨Set_commands _ _ _ _, day_eq_seconds, ?_, ?_, Set_now _ _ _ _⟩
  · rw [← day_eq_seconds]
    exact Set_keyspace_same hf short _ day_pos
  · intro k hk
    exact Set_keyspace_other _ _ _ _ hk

theorem C6_store_effect_witness :
    postExample.FormValue "url" ≠ "" ∧
    (shortenURL [] postExample sampleId ⟨expiredStore, []⟩).2.redisClient.commands
      = expiredStore.commands
        ++ [Command.set sampleId (postExample.FormValue "url") (24 * Hour)] ∧
    24 * Hour = 86400 * Second ∧
    (shortenURL [] postExample sampleId ⟨expiredStore, []⟩).2.redisClient.keyspace sampleId
      = some { value := postExample.FormValue "url",
               expireAt := some (expiredStore.now + 86400 * Second) } ∧
    (∀ k, k ≠ sampleId →
      (shortenURL [] postExample sampleId ⟨expiredStore, []⟩).2.redisClient.keyspace k
        = expiredStore.keyspace k) ∧
    (shortenURL [] postExample sampleId ⟨expiredStore, []⟩).2.redisClient.now
      = expiredStore.now :=
  ⟨by decide,
    C6_store_effect [] postExample sampleId ⟨expiredStore, []⟩ (by decide) ⟨"OK", rfl⟩⟩

/-- C7: a failed store write.  For a non-empty URL, whatever the host and the
environment, when the write fails `shortenURL` answers 500 with the fixed text
"failed to set shortened url" (not 200, and the body begins with neither scheme,
so it is no short URL); the write was attempted exactly once (one SET reached
the store, nothing else), and the cause was logged once. -/
theorem C7_write_failure (env : Env) (c : Context) (short : String) (st : State)
    (err : RedisError)
    (hu : c.FormValue "url" ≠ "")
    (hw : (st.redisClient.Set short (c.FormValue "url") (24 * Hour)).1 = .error err) :
    (∃ resp, (shortenURL env c short st).1 = .ok resp ∧ resp.status = 500 ∧
      resp.status ≠ 200 ∧ resp.body = "failed to set shortened url" ∧
      ¬ ("http://".data <+: resp.body.data) ∧ ¬ ("https://".data <+: resp.body.data)) ∧
    (shortenURL env c short st).2.redisClient.commands
      = st.redisClient.commands ++ [Command.set short (c.FormValue "url") (24 * Hour)] ∧
    (shortenURL env c short st).2.logger
      = st.logger ++ [{ err := err, msg := "failed to set shortened url" }] := by
  obtain ⟨cause, hf, rfl⟩ := Set_error_fault hw
  rw [shortenURL_failed env c short st hu hf]
  exact ⟨⟨_, rfl, rfl, by decide, rfl, by decide, by decide⟩, Set_commands _ _ _ _, rfl⟩

theorem C7_write_failure_witness :
    postExample.FormValue "url" ≠ "" ∧
    (brokenStore.Set sampleId (postExample.FormValue "url") (24 * Hour)).1
      = .error (.failure "connection refused") ∧
    (∃ resp, (shortenURL [("DEV_FLAG", "1")] postExample sampleId ⟨brokenStore, []⟩).1
        = .ok resp ∧ resp.status = 500 ∧
      resp.status ≠ 200 ∧ resp.body = "failed to set shortened url" ∧
      ¬ ("http://".data <+: resp.body.data) ∧ ¬ ("https://".data <+: resp.body.data)) ∧
    (shortenURL [("DEV_FLAG", "1")] postExample sampleId ⟨brokenStore, []⟩).2.redisClient.commands
      = brokenStore.commands
        ++ [Command.set sampleId (postExample.FormValue "url") (24 * Hour)] ∧
    (shortenURL [("DEV_FLAG", "1")] postExample sampleId ⟨brokenStore, []⟩).2.logger
      = [] ++ [{ err := .failure "connection refused", msg := "failed to set shortened url" }] :=
  ⟨by decide, rfl,
    C7_write_failure [("DEV_FLAG", "1")] postExample sampleId ⟨brokenStore, []⟩
      (.failure "connection refused") (by decide) rfl⟩

/-- C8: the two kinds of lookup failure.  For a non-empty identifier whose lookup
fails with error `err`, `redirectToURL` answers 500 exactly when `err` is not
`redis.Nil` and 404 exactly when it is; in both cases the response is no
redirect (status not 302, no `Location` header), and the key space is unchanged. -/
theorem C8_lookup_failures (c : Context) (st : State) (err : RedisError)
    (hid : c.Param "id" ≠ "")
    (hget : (st.redisClient.Get (c.Param "id")).1 = .error err) :
    (∃ resp, (redirectToURL c st).1 = .ok resp ∧
      (resp.status = 500 ↔ err ≠ .Nil) ∧ (resp.status = 404 ↔ err = .Nil) ∧
      resp.status ≠ 302 ∧ resp.header.lookup "Location" = none) ∧
    (redirectToURL c st).2.redisClient.keyspace = st.redisClient.keyspace := by
  have hmain : redirectToURL c st
      = (if err.isNil then
          (c.String StatusNotFound "url not found",
            { st with redisClient := (st.redisClient.Get (c.Param "id")).2 })
        else
          (c.String StatusInternalServerError "failed to retrieve url",
            { redisClient := (st.redisClient.Get (c.Param "id")).2,
              logger := st.logger ++
                [{ err := err, msg := "failed to get shortened url" }] })) := by
    simp only [redirectToURL, hid, if_false]
    generalize st.redisClient.Get (c.Param "id") = res at hget
    obtain ⟨out, r⟩ := res
    simp only at hget
    subst hget
    rfl
  rw [hmain]
  cases err with
  | Nil =>
    exact ⟨⟨_, rfl, by decide, by decide, by decide, by decide⟩, Get_keyspace _ _⟩
  | failure cause =>
    refine ⟨⟨_, rfl, ?_, ?_, by decide, by decide⟩, Get_keyspace _ _⟩
    · simp [RedisError.isNil, StatusInternalServerError]
    · simp [RedisError.isNil, StatusInternalServerError]

theorem C8_lookup_failures_witness :
    (getId sampleId).Param "id" ≠ "" ∧
    (brokenStore.Get ((getId sampleId).Param "id")).1
      = .error (.failure "connection refused") ∧
    (∃ resp, (redirectToURL (getId sampleId) ⟨brokenStore, []⟩).1 = .ok resp ∧
      (resp.status = 500 ↔ RedisError.failure "connection refused" ≠ .Nil) ∧
      (resp.status = 404 ↔ RedisError.failure "connection refused" = .Nil) ∧
      resp.status ≠ 302 ∧ resp.header.lookup "Location" = none) ∧
    (redirectToURL (getId sampleId) ⟨brokenStore, []⟩).2.redisClient.keyspace
      = brokenStore.keyspace :=
  ⟨by decide, rfl,
    C8_lookup_failures (getId sampleId) ⟨brokenStore, []⟩ (.failure "connection refused")
      (by decide) rfl⟩

/-- C9: an empty identifier gives status 400 and leaves the whole state as it
was, whatever the store holds (also a record under the empty key) and whatever
the condition of its connection: no command is issued, so the store is neither
consulted nor changed. -/
theorem C9_empty_id (c : Context) (st : State) (h : c.Param "id" = "") :
    (∃ resp, (redirectToURL c st).1 = .ok resp ∧ resp.status = 400 ∧
      resp.header.lookup "Location" = none) ∧
    (redirectToURL c st).2 = st ∧
    (redirectToURL c st).2.redisClient.commands = st.redisClient.commands := by
  rw [redirectToURL_empty c st h]
  exact ⟨⟨_, rfl, rfl, by decide⟩, rfl, rfl⟩

theorem C9_empty_id_witness :
    (getId "").Param "id" = "" ∧
    (emptyKeyStore.keyspace "").isSome = true ∧ emptyKeyStore.fault.isSome = true ∧
    (∃ resp, (redirectToURL (getId "") ⟨emptyKeyStore, []⟩).1 = .ok resp ∧
      resp.status = 400 ∧ resp.header.lookup "Location" = none) ∧
    (redirectToURL (getId "") ⟨emptyKeyStore, []⟩).2 = ⟨emptyKeyStore, []⟩ ∧
    (redirectToURL (getId "") ⟨emptyKeyStore, []⟩).2.redisClient.commands
      = emptyKeyStore.commands :=
  ⟨by decide, rfl, rfl, C9_empty_id (getId "") ⟨emptyKeyStore, []⟩ (by decide)⟩

/-- C10: key immutability.  In every sequence of `shortenURL` and
`redirectToURL` calls during which the clock does not move (no expiry), the
identifiers being unique as `uuid.New()` draws them, a record present after the
first part of the sequence is still there, with the same value and deadline,
after the rest of it.  `redirectToURL` never changes the key space or the clock,
and a `shortenURL` call, whose identifier is not yet a key, leaves every existing
key with the record it had: it changes no key other than the one it creates. -/
theorem C10_key_immutability (st : State) (pre post : List Call)
    (k : String) (r : Record)
    (huniq : uuidUnique st (pre ++ post))
    (hk : (run st pre).redisClient.keyspace k = some r) :
    (run st (pre ++ post)).redisClient.keyspace k = some r ∧
    (run st (pre ++ post)).redisClient.now = st.redisClient.now ∧
    (∀ c st0, (redirectToURL c st0).2.redisClient.keyspace = st0.redisClient.keyspace ∧
      (redirectToURL c st0).2.redisClient.now = st0.redisClient.now) ∧
    (∀ env c short st0 key rec, st0.redisClient.keyspace short = none →
      st0.redisClient.keyspace key = some rec →
      (shortenURL env c short st0).2.redisClient.keyspace key = some rec) ∧
    (∀ env c short st0 key, key ≠ short →
      (shortenURL env c short st0).2.redisClient.keyspace key
        = st0.redisClient.keyspace key) := by
  refine ⟨?_, run_now _ _, fun c st0 => ⟨redirectToURL_keyspace c st0, redirectToURL_now c st0⟩,
    ?_, ?_⟩
  · rw [run_append]
    exact run_keeps _ post (uuidUnique_append st pre post huniq) hk
  · intro env c short st0 key rec hnone hrec
    have hne : key ≠ short := by
      intro h
      rw [h, hnone] at hrec
      exact Option.noConfusion hrec
    rw [shortenURL_keyspace_other env c short st0 hne]
    exact hrec
  · intro env c short st0 key hne
    exact shortenURL_keyspace_other env c short st0 hne

theorem C10_key_immutability_witness :
    uuidUnique ⟨emptyStore, []⟩ (sampleBefore ++ sampleAfter) ∧
    (run ⟨emptyStore, []⟩ sampleBefore).redisClient.keyspace sampleId
      = some { value := "https://a.example", expireAt := some (24 * Hour) } ∧
    (run ⟨emptyStore, []⟩ (sampleBefore ++ sampleAfter)).redisClient.keyspace sampleId
      = some { value := "https://a.example", expireAt := some (24 * Hour) } ∧
    (run ⟨emptyStore, []⟩ (sampleBefore ++ sampleAfter)).redisClient.now = emptyStore.now ∧
    (∀ c st0, (redirectToURL c st0).2.redisClient.keyspace = st0.redisClient.keyspace ∧
      (redirectToURL c st0).2.redisClient.now = st0.redisClient.now) ∧
    (∀ env c short st0 key rec, st0.redisClient.keyspace short = none →
      st0.redisClient.keyspace key = some rec →
      (shortenURL env c short st0).2.redisClient.keyspace key = some rec) ∧
    (∀ env c short st0 key, key ≠ short →
      (shortenURL env c short st0).2.redisClient.keyspace key
        = st0.redisClient.keyspace key) :=
  ⟨⟨rfl, trivial, rfl, rfl, trivial⟩, rfl,
    C10_key_immutability ⟨emptyStore, []⟩ sampleBefore sampleAfter sampleId
      { value := "https://a.example", expireAt := some (24 * Hour) }
      ⟨rfl, trivial, rfl, rfl, trivial⟩ rfl⟩

end UrlShortener
